import Mathlib

/-!
Verification of the spreadsheet record extractor in
`src/scripts/import-bens-farmhouse-recipes.py`.

The Python functions `parse_excel` and `parse_recipe` are shallowly embedded
over an abstract cell grid.  Spreadsheet cells (openpyxl `cell.value`) are
modelled as empty / text / numeric, with numbers as rationals.  Python's
`float(...)` on a string is modelled by a decimal parser covering the plain
sign/digits/point forms (exponents, underscores and `inf`/`nan` are not
modelled); `str(...)` of an integral numeric cell is its decimal form, and a
non-integral numeric is rendered `num/den` (a stand-in: none of the proved
statements depend on the text of a non-integral numeric cell).  The random
`generate_recipe_id()` is modelled by an ambient stream `ids : Nat → String`
consumed in call order.  The two unguarded `float(...)` conversions (cost and
yield percent of an ingredient row) can raise in Python and abort the whole
run; runs are therefore embedded in `Except Unit`, with `.error ()` standing
for an uncaught exception.
-/

/-- Python `pat in s` substring test: does `l` contain `pat` as a
contiguous segment? `charsAgree p l` checks that `p` is an initial segment
of `l`. -/
def charsAgree : List Char → List Char → Bool
  | [], _ => true
  | _ :: _, [] => false
  | p :: ps, c :: cs => p == c && charsAgree ps cs

/-- Containment of `pat` as a contiguous segment of `l` (empty `pat` is
contained everywhere, as in Python). -/
def listContainsSeg (pat : List Char) : List Char → Bool
  | [] => pat.isEmpty
  | c :: cs => charsAgree pat (c :: cs) || listContainsSeg pat cs

/-- Python `pat in s` on strings. -/
def strContains (s pat : String) : Bool :=
  listContainsSeg pat.toList s.toList

/-- Digits of a decimal literal folded to a natural number. -/
def decValue (l : List Char) : Nat :=
  l.foldl (fun n c => 10 * n + (c.toNat - 48)) 0

/-- ASCII whitespace for Python `str.strip()`. -/
def isPySpace (c : Char) : Bool :=
  c == ' ' || c == '\t' || c == '\n' || c == '\r' ||
    c == '\x0b' || c == '\x0c'

/-- Python `str.strip()`, over the character list (a structural version
that the kernel can evaluate, unlike the byte-position core `trim`). -/
def String.pyStrip (s : String) : String :=
  ⟨((s.data.dropWhile isPySpace).reverse.dropWhile isPySpace).reverse⟩

/-- Fuel-driven Euclid: `gcdAux (a+1) a b` computes `gcd a b` (the first
argument strictly decreases each step, so `a+1` steps suffice). -/
def gcdAux : Nat → Nat → Nat → Nat
  | 0, _, b => b
  | _ + 1, 0, b => b
  | fuel + 1, a, b => gcdAux fuel (b % a) a

/-- Greatest common divisor, kernel-computable. -/
def natGcd (a b : Nat) : Nat := gcdAux (a + 1) a b

/-- An exact rational standing in for a Python float (floats are binary
rationals; exactness of decimal constants is a deliberate idealization).
Values built by `mkPyRat` are in lowest terms with positive denominator,
so structural equality is value equality on all computed results. -/
structure PyRat where
  num : Int
  den : Nat
deriving DecidableEq

/-- Normalized constructor (the junk case `d = 0` never arises from the
embedded code). -/
def mkPyRat (n : Int) (d : Nat) : PyRat :=
  if d = 0 then ⟨0, 1⟩
  else
    let g := natGcd n.natAbs d
    ⟨Int.tdiv n (Int.ofNat g), d / g⟩

/-- The rational `n`. -/
def PyRat.ofInt (n : Int) : PyRat := ⟨n, 1⟩

/-- Python truthiness of a float: zero is falsy. -/
def PyRat.truthy (q : PyRat) : Bool := !(q.num == 0)

/-- Addition. -/
def PyRat.add (x y : PyRat) : PyRat :=
  mkPyRat (x.num * (y.den : Int) + y.num * (x.den : Int)) (x.den * y.den)

/-- Multiplication. -/
def PyRat.mul (x y : PyRat) : PyRat :=
  mkPyRat (x.num * y.num) (x.den * y.den)

/-- Division (the `y = 0` case is unreachable behind the code's guards). -/
def PyRat.div (x y : PyRat) : PyRat :=
  if y.num = 0 then ⟨0, 1⟩
  else mkPyRat (x.num * (y.den : Int) * Int.sign y.num) (x.den * y.num.natAbs)

/-- Strict order by cross multiplication (denominators are positive). -/
def PyRat.lt (x y : PyRat) : Bool :=
  x.num * (y.den : Int) < y.num * (x.den : Int)

/-- Python `sum(...)` over a list of rationals. -/
def PyRat.sum (l : List PyRat) : PyRat :=
  l.foldl PyRat.add (PyRat.ofInt 0)

/-- Floor to an integer. -/
def PyRat.floor (q : PyRat) : Int := Int.fdiv q.num (q.den : Int)

/-- Ceiling to an integer. -/
def PyRat.ceil (q : PyRat) : Int := -(Int.fdiv (-q.num) (q.den : Int))

/-- Python `float(s)` on a string, for the plain decimal forms
`[+-]digits`, `[+-]digits.digits`, `[+-]digits.`, `[+-].digits`
(leading/trailing whitespace stripped).  `none` models `ValueError`. -/
def parseFloat? (s : String) : Option PyRat :=
  let cs := s.pyStrip.toList
  let sgn : Int × List Char :=
    match cs with
    | '-' :: r => (-1, r)
    | '+' :: r => (1, r)
    | _ => (1, cs)
  let intPart := sgn.2.takeWhile (fun c => !(c == '.'))
  let rest := sgn.2.dropWhile (fun c => !(c == '.'))
  match rest with
  | [] =>
      if !intPart.isEmpty && intPart.all Char.isDigit then
        some (mkPyRat (sgn.1 * decValue intPart) 1)
      else none
  | _ :: frac =>
      if intPart.all Char.isDigit && frac.all Char.isDigit &&
          (!intPart.isEmpty || !frac.isEmpty) then
        some (mkPyRat (sgn.1 *
          (decValue intPart * 10 ^ frac.length + decValue frac))
          (10 ^ frac.length))
      else none

/-- A spreadsheet cell value: `None`, a string, or a number (rational). -/
inductive Cell where
  | empty
  | str (s : String)
  | num (q : PyRat)
deriving DecidableEq

/-- Python truthiness of a cell value: `None`, `''` and `0` are falsy. -/
def Cell.truthy : Cell → Bool
  | .empty => false
  | .str s => !(s == "")
  | .num q => q.truthy

/-- Python `str(...)` of a cell value.  Integral numerics print as Python
ints; a non-integral numeric prints as `num/den` (modelling stand-in, see
the file comment). -/
def Cell.toStr : Cell → String
  | .empty => "None"
  | .str s => s
  | .num q => if q.den == 1 then toString q.num
              else toString q.num ++ "/" ++ toString q.den

/-- Python `float(...)` of a cell value (`none` = `ValueError`/`TypeError`). -/
def cellToFloat? : Cell → Option PyRat
  | .empty => none
  | .str s => parseFloat? s
  | .num q => some q

/-- Success of `int(float(str(a_val)))` for a non-`None` cell: any numeric
cell passes; a string cell passes iff it parses as a float. -/
def ordinalOk : Cell → Bool
  | .empty => false
  | .num _ => true
  | .str s => (parseFloat? s).isSome

/-- Python `int(...)` of a rational: truncation toward zero. -/
def truncRat (q : PyRat) : Int :=
  if q.num < 0 then q.ceil else q.floor

/-- Round a rational half to even to an integer (Python `round`'s tie
rule): with `f = ⌊q⌋` and remainder `r = q - f`, take `f` for `r < 1/2`,
`f+1` for `r > 1/2`, and the even neighbour at a tie.  `rem2` is twice the
remainder's numerator over `q.den`. -/
def roundHalfEven (q : PyRat) : Int :=
  let f := q.floor
  let rem2 := 2 * (q.num - f * (q.den : Int))
  if rem2 < (q.den : Int) then f
  else if rem2 > (q.den : Int) then f + 1
  else if f % 2 = 0 then f else f + 1

/-- Python `round(q, 2)` as a rational. -/
def pyRound2 (q : PyRat) : PyRat :=
  mkPyRat (roundHalfEven (q.mul (PyRat.ofInt 100))) 100

/-- The worksheet: 1-indexed cells and openpyxl's `max_row`. -/
structure Grid where
  maxRow : Nat
  cell : Nat → Nat → Cell

/-- Build a grid from a row-major list of rows (missing cells are empty),
rows and columns 1-indexed as in openpyxl. -/
def gridOfRows (rows : List (List Cell)) : Grid where
  maxRow := rows.length
  cell := fun r c => (rows.getD (r - 1) []).getD (c - 1) Cell.empty

/-- Python `range(lo, hi+1)` as an inclusive ascending list. -/
def upRange (lo hi : Nat) : List Nat :=
  (List.range (hi + 1 - lo)).map (lo + ·)

/-- Python `range(s, stop, -1)`: `s, s-1, ..., stop+1`. -/
def downRange : Nat → Nat → List Nat
  | 0, _ => []
  | s + 1, stop => if stop < s + 1 then (s + 1) :: downRange s stop else []

/-! ## `parse_excel`, pass 1 and pass 2 (lines 31-126) -/

/-- Pass 1 (lines 42-47): rows whose column-B value is truthy and whose
`str` contains `"Recipe ID"`. -/
def markerRows (g : Grid) : List Nat :=
  (upRange 1 g.maxRow).filter fun r =>
    (g.cell r 2).truthy && strContains (g.cell r 2).toStr "Recipe ID"

/-- The apostrophe character, written by code point. -/
def apos : String := (Char.ofNat 39).toString

/-- The denylist of known non-name headers (lines 68, 92). -/
def denylist : List String :=
  ["BEN" ++ apos ++ "S FARMHOUSE", "Ingredients", "S.No"]

/-- The date-sniffing test (lines 70, 94): contains `"20"`, contains `"-"`
or `"/"`, and is shorter than 25 characters. -/
def isDateLike (val : String) : Bool :=
  strContains val "20" && (strContains val "-" || strContains val "/") &&
    val.length < 25

/-- Name-resolution loop (lines 62-74): walk the rows upward; on a row with
truthy column A and falsy column B, skip denylisted/empty/date-like values
and otherwise accept. -/
def findNameGo (g : Grid) : List Nat → Option (String × Nat)
  | [] => none
  | r :: rs =>
    let a := g.cell r 1
    let b := g.cell r 2
    if a.truthy && !b.truthy then
      let val := a.toStr.pyStrip
      if val ∈ denylist || val == "" then findNameGo g rs
      else if isDateLike val then findNameGo g rs
      else some (val, r)
    else findNameGo g rs

/-- Name resolution for the marker at `ridRow`: scan
`range(rid_row-1, max(rid_row-5,0), -1)`. -/
def findName (g : Grid) (ridRow : Nat) : Option (String × Nat) :=
  findNameGo g (downRange (ridRow - 1) (ridRow - 5))

/-- Category-resolution loop (lines 82-119).  `prevRid` is
`recipe_id_rows[idx-1]` when `idx > 0`.  Returns the updated
`current_category`.  Fully-empty rows are skipped; every other row ends the
loop, assigning a new category only for a non-denylisted, non-date,
non-numeric label-only value that lies strictly below the previous marker
(or anywhere, for the first marker). -/
def resolveCategoryGo (g : Grid) (prevRid : Option Nat) :
    List Nat → Option String → Option String
  | [], cur => cur
  | r :: rs, cur =>
    let a := g.cell r 1
    let b := g.cell r 2
    if a = .empty && b = .empty then resolveCategoryGo g prevRid rs cur
    else if a.truthy && !b.truthy then
      let val := a.toStr.pyStrip
      if val ∈ denylist || val == "" then cur
      else if isDateLike val then cur
      else if (parseFloat? val).isSome then cur
      else
        match prevRid with
        | some p => if p < r then some val else cur
        | none => some val
    else cur

/-- Category resolution above the resolved name row (lines 82-119). -/
def resolveCategory (g : Grid) (nameRow : Nat) (prevRid : Option Nat)
    (cur : Option String) : Option String :=
  resolveCategoryGo g prevRid (downRange (nameRow - 1) (nameRow - 5)) cur

/-! ## `parse_recipe` (lines 129-310) -/

/-- The metadata accumulated over the marker block (lines 132-137). -/
structure RecipeMeta where
  recipeIdSource : Option String
  totalYield : Option PyRat
  totalCalories : Option PyRat
  perServingWeight : Option PyRat
  description : Option String
  prepTime : Option Int
deriving DecidableEq

/-- All-absent initial metadata. -/
def initMeta : RecipeMeta :=
  ⟨none, none, none, none, none, none⟩

/-- The column-F/G header scan of one metadata row (lines 161-179):
`Calories` / `Per Serving Weight` headers with the value one column to the
right; an unparseable value leaves the field unchanged (`except: pass`). -/
def colPair (g : Grid) (row col : Nat) (m : RecipeMeta) : RecipeMeta :=
  let h := g.cell row col
  if h.truthy then
    let hs := h.toStr.pyStrip
    if strContains hs "Calories" then
      let v := g.cell row (col + 1)
      if v ≠ .empty then
        match cellToFloat? v with
        | some x => { m with totalCalories := some x }
        | none => m
      else m
    else if strContains hs "Per Serving Weight" then
      let v := g.cell row (col + 1)
      if v ≠ .empty then
        match cellToFloat? v with
        | some x => { m with perServingWeight := some x }
        | none => m
      else m
    else m
  else m

/-- One metadata row (lines 140-179): the column-B/C label-value pairs,
then the column-F and column-G header pairs. -/
def metaRow (g : Grid) (row : Nat) (m : RecipeMeta) : RecipeMeta :=
  let b := g.cell row 2
  let c := g.cell row 3
  let m :=
    if b.truthy then
      let bs := b.toStr.pyStrip
      if strContains bs "Recipe ID" then
        { m with recipeIdSource := if c.truthy then some c.toStr.pyStrip else none }
      else if strContains bs "Total Yield" then
        { m with totalYield := if c.truthy then cellToFloat? c else none }
      else if strContains bs "Description" then
        { m with description := some (if c.truthy then c.toStr.pyStrip else "") }
      else if strContains bs "Preparation Time" then
        { m with prepTime :=
            if c.truthy then (cellToFloat? c).map truncRat else none }
      else m
    else m
  colPair g row 7 (colPair g row 6 m)

/-- The metadata scan (lines 140-184): fold over the window rows, breaking
after a row whose column A is the `Ingredients` section label. -/
def metaScan (g : Grid) : List Nat → RecipeMeta → RecipeMeta
  | [], m => m
  | row :: rs, m =>
    let m := metaRow g row m
    let a := g.cell row 1
    if a.truthy && a.toStr.pyStrip == "Ingredients" then m
    else metaScan g rs m

/-- The metadata of the recipe at marker `rid`
(window `range(rid_row, min(rid_row+8, max_row+1))`). -/
def recipeMeta (g : Grid) (rid : Nat) : RecipeMeta :=
  metaScan g (upRange rid (min (rid + 7) g.maxRow)) initMeta

/-- Locate the first ingredient row (lines 186-198): find the
`Ingredients` label within `range(rid_row, min(rid_row+12, max_row+1))`;
skip one more row when the next row's column A contains `S.No`. -/
def ingredientsStartGo (g : Grid) : List Nat → Option Nat
  | [] => none
  | row :: rs =>
    let a := g.cell row 1
    if a.truthy && a.toStr.pyStrip == "Ingredients" then
      let na := g.cell (row + 1) 1
      if na.truthy && strContains na.toStr "S.No" then some (row + 2)
      else some (row + 1)
    else ingredientsStartGo g rs

/-- First ingredient row of the recipe at marker `rid`, or `none` when no
`Ingredients` label is found (then `parse_recipe` returns `None`). -/
def ingredientsStart (g : Grid) (rid : Nat) : Option Nat :=
  ingredientsStartGo g (upRange rid (min (rid + 11) g.maxRow))

/-- One parsed ingredient (the dict of lines 230-251). -/
structure Ingredient where
  name : String
  unit : String
  source : String
  quantity : PyRat
  cost : PyRat
  allergens : List String
  yieldPercent : PyRat
  quantityInGrams : PyRat
  yieldQuantityInGrams : PyRat
  ingredientId : String
  entityIngredientId : String
  isStarred : Bool
  userAllergens : List String
  compositeIngredients : List String
  mayContainAllergens : List String
  userMayContainAllergens : List String
  nutrients : List (String × PyRat)
  subRecipeName : Option String
deriving DecidableEq

/-- The effective quantity (lines 224-228): the yield quantity when truthy,
else the raw quantity when truthy, else 0; a `float` failure on the chosen
cell yields 0 (`except` clause). -/
def qtyVal (quantity yieldQty : Cell) : PyRat :=
  if yieldQty.truthy then (cellToFloat? yieldQty).getD (PyRat.ofInt 0)
  else if quantity.truthy then (cellToFloat? quantity).getD (PyRat.ofInt 0)
  else PyRat.ofInt 0

/-- Build the ingredient dict for a numbered row (lines 215-251) given the
generated entity identifier.  The two unguarded `float(...)` calls — cost
(line 235) and yield percent (line 237) — raise on a truthy unparseable
cell, modelled as `.error ()`. -/
def buildIngredient (g : Grid) (row : Nat) (eid : String) :
    Except Unit Ingredient :=
  let iid := g.cell row 2
  let nm := g.cell row 3
  let ity := g.cell row 4
  let srn := g.cell row 5
  let qty := g.cell row 6
  let ypct := g.cell row 7
  let yqty := g.cell row 8
  let cst := g.cell row 9
  match (if cst.truthy then cellToFloat? cst else some (PyRat.ofInt 0)) with
  | none => .error ()
  | some costV =>
    match (if ypct.truthy then cellToFloat? ypct
        else some (PyRat.ofInt 100)) with
    | none => .error ()
    | some ypV =>
      .ok {
        name := if nm.truthy then nm.toStr.pyStrip else ""
        unit := "G"
        source := if ity.truthy then ity.toStr.pyStrip else "Ingredient"
        quantity := qtyVal qty yqty
        cost := costV
        allergens := []
        yieldPercent := ypV
        quantityInGrams := qtyVal qty yqty
        yieldQuantityInGrams := qtyVal qty yqty
        ingredientId := if iid.truthy then iid.toStr.pyStrip else ""
        entityIngredientId := eid
        isStarred := false
        userAllergens := []
        compositeIngredients := []
        mayContainAllergens := []
        userMayContainAllergens := []
        nutrients := []
        subRecipeName := if srn.truthy then some srn.toStr.pyStrip else none }

/-- The ingredient loop (lines 204-261), fuelled so that
`fuel = maxRow + 1 - row` reproduces `while row <= max_row`.  A non-`None`
column A that fails the ordinal test ends collection; an all-empty
(columns A, B, C) row ends collection; a row with empty column A but a
truthy column B or C is skipped.  `ctr` indexes the id stream. -/
def parseIngredientsAux (g : Grid) (ids : Nat → String) :
    Nat → Nat → Nat → Except Unit (List Ingredient × Nat)
  | 0, _, ctr => .ok ([], ctr)
  | fuel + 1, row, ctr =>
    if g.maxRow < row then .ok ([], ctr)
    else if g.cell row 1 = .empty then
      if !(g.cell row 2).truthy && !(g.cell row 3).truthy then .ok ([], ctr)
      else parseIngredientsAux g ids fuel (row + 1) ctr
    else if ordinalOk (g.cell row 1) then
      match buildIngredient g row ("imported_" ++ ids ctr) with
      | .error e => .error e
      | .ok ing =>
        match parseIngredientsAux g ids fuel (row + 1) (ctr + 1) with
        | .error e => .error e
        | .ok (l, c) => .ok (ing :: l, c)
    else .ok ([], ctr)

/-- Serving size (line 264): the per-serving weight when truthy, else 100. -/
def servingSizeOf (psw : Option PyRat) : PyRat :=
  match psw with
  | some w => if w.truthy then w else PyRat.ofInt 100
  | none => PyRat.ofInt 100

/-- Total yield value (lines 265-267): the parsed total yield when truthy,
else the sum of ingredient `quantity_in_grams`; 100 when that is 0. -/
def totalYieldValOf (ty : Option PyRat) (ings : List Ingredient) : PyRat :=
  let s := PyRat.sum (ings.map (·.quantityInGrams))
  let v := match ty with
    | some t => if t.truthy then t else s
    | none => s
  if v.num = 0 then PyRat.ofInt 100 else v

/-- The raw scale factor (line 268): `total_yield_val / serving_size`
guarded to 1 when the serving size is not positive. -/
def scaleFactorRaw (tyv ss : PyRat) : PyRat :=
  if PyRat.lt (PyRat.ofInt 0) ss then tyv.div ss else PyRat.ofInt 1

/-- The `serving` sub-object (lines 278-286). -/
structure Serving where
  scaleFactor : PyRat
  servingUnit : String
  totalYieldGrams : PyRat
  servingSizeGrams : PyRat
  servingDescription : String
  servingsPerPackage : Nat
  totalCookedWeightGrams : PyRat
deriving DecidableEq

/-- One reconstructed recipe record (the dict of lines 270-308, with the
nutrition summary flattened into scalar fields). -/
structure Record where
  id : String
  name : String
  category : String
  status : String
  description : String
  preparationTimeMinutes : Option Int
  ownerEmail : String
  serving : Serving
  dietTypes : List String
  allergens : List String
  mayContainAllergens : List String
  caloriesSummary : PyRat
  netCarbs : PyRat
  nutritionTotalYieldGrams : PyRat
  nutritionServingSizeGrams : PyRat
  ingredients : List Ingredient
  sourceRecipeId : Option String
deriving DecidableEq

/-- The target owner (line 19). -/
def ownerEmailConst : String := "meerim@bensfarmhouse.com"

/-- Assemble the recipe dict (lines 263-308) from the resolved name,
category, metadata, ingredients and the generated record id. -/
def mkRecord (recipeName : String) (category : Option String)
    (m : RecipeMeta) (ings : List Ingredient) (recId : String) : Record :=
  let ss := servingSizeOf m.perServingWeight
  let tyv := totalYieldValOf m.totalYield ings
  let sf := scaleFactorRaw tyv ss
  { id := recId
    name := recipeName
    category := category.getD ""
    status := "IMPORTED"
    description := m.description.getD ""
    preparationTimeMinutes := m.prepTime
    ownerEmail := ownerEmailConst
    serving := {
      scaleFactor := pyRound2 sf
      servingUnit := "g"
      totalYieldGrams := tyv
      servingSizeGrams := ss
      servingDescription := ""
      servingsPerPackage := 1
      totalCookedWeightGrams := tyv }
    dietTypes := []
    allergens := []
    mayContainAllergens := []
    caloriesSummary := (m.totalCalories).getD (PyRat.ofInt 0)
    netCarbs := PyRat.ofInt 0
    nutritionTotalYieldGrams := tyv
    nutritionServingSizeGrams := ss
    ingredients := ings
    sourceRecipeId := m.recipeIdSource }

/-- `parse_recipe` (lines 129-310): metadata scan, ingredient-section
lookup (`None` when absent), ingredient loop, record assembly.  The id
stream is consumed once per ingredient (entity id) and once for the record
id, in that order; `ctr` is threaded. -/
def parseRecipe (g : Grid) (ids : Nat → String) (recipeName : String)
    (rid : Nat) (category : Option String) (ctr : Nat) :
    Except Unit (Option Record × Nat) :=
  let m := recipeMeta g rid
  match ingredientsStart g rid with
  | none => .ok (none, ctr)
  | some start =>
    match parseIngredientsAux g ids (g.maxRow + 1 - start) start ctr with
    | .error e => .error e
    | .ok (ings, ctr') =>
      .ok (some (mkRecord recipeName category m ings (ids ctr')), ctr' + 1)

/-- Pass 2 of `parse_excel` (lines 53-126): fold over the marker rows,
threading the previous marker row, the sticky `current_category` and the
id-stream counter.  A marker with no resolvable name is skipped with the
category unchanged; otherwise the category is updated before
`parse_recipe`, and a `None` recipe is not appended. -/
def parseExcelGo (g : Grid) (ids : Nat → String) :
    List Nat → Option Nat → Option String → Nat → Except Unit (List Record)
  | [], _, _, _ => .ok []
  | rid :: rest, prev, cat, ctr =>
    match findName g rid with
    | none => parseExcelGo g ids rest (some rid) cat ctr
    | some (nm, nameRow) =>
      let cat' := resolveCategory g nameRow prev cat
      match parseRecipe g ids nm rid cat' ctr with
      | .error e => .error e
      | .ok (none, ctr') => parseExcelGo g ids rest (some rid) cat' ctr'
      | .ok (some r, ctr') =>
        match parseExcelGo g ids rest (some rid) cat' ctr' with
        | .error e => .error e
        | .ok rs => .ok (r :: rs)

/-- `parse_excel` (lines 31-126) over a loaded grid, with the id stream as
the model of `generate_recipe_id`. -/
def parseExcel (g : Grid) (ids : Nat → String) : Except Unit (List Record) :=
  parseExcelGo g ids (markerRows g) none none 0

/-! ## The id-stripping views (the randomly generated identifiers) -/

/-- Erase the randomly generated per-ingredient entity identifier. -/
def stripIng (i : Ingredient) : Ingredient :=
  { i with entityIngredientId := "" }

/-- Erase the randomly generated record id and the entity identifiers of
its ingredients. -/
def stripRec (r : Record) : Record :=
  { r with id := "", ingredients := r.ingredients.map stripIng }

/-! ## Definitions modelled from the claims' own words (for refutation) -/

/-- Modelled from the claim: the effective quantity the claim describes —
the yield-adjusted quantity if the cell is present (non-`None`) and
parseable as a number, else the raw quantity if present and parseable,
else zero. -/
def claimedEffQty (quantity yieldQty : Cell) : PyRat :=
  match (if yieldQty ≠ .empty then cellToFloat? yieldQty else none) with
  | some v => v
  | none =>
    match (if quantity ≠ .empty then cellToFloat? quantity else none) with
    | some v => v
    | none => PyRat.ofInt 0

/-- Modelled from the claim: a "4-digit year pattern" — four consecutive
digit characters. -/
def hasFourConsecDigitsGo : List Char → Bool
  | c1 :: c2 :: c3 :: c4 :: rest =>
    (c1.isDigit && c2.isDigit && c3.isDigit && c4.isDigit) ||
      hasFourConsecDigitsGo (c2 :: c3 :: c4 :: rest)
  | _ => false

/-- A string contains four consecutive digits. -/
def hasFourConsecDigits (s : String) : Bool :=
  hasFourConsecDigitsGo s.toList

/-- The amended date rule, in the spec's vocabulary: the candidate contains
the substring `"20"`, contains `"-"` or `"/"`, and is shorter than 25
characters. -/
def amendedDateRule (val : String) : Bool :=
  strContains val "20" && (strContains val "-" || strContains val "/") &&
    decide (val.length < 25)

/-! ## Concrete grids for witnesses and counterexamples -/

/-- A deterministic id stream standing in for `generate_recipe_id`. -/
def ids0 : Nat → String := fun n => "id" ++ toString n

/-- A second deterministic id stream. -/
def ids1 : Nat → String := fun n => "uid" ++ toString n

/-- A complete single-recipe sheet: category, name, marker, metadata
(yield 500, per-serving weight 100, calories 250), two ingredient rows. -/
def gMain : Grid := gridOfRows [
  [Cell.str "Soups"],
  [Cell.str "Lentil Soup"],
  [Cell.empty, Cell.str "Recipe ID", Cell.str "R1"],
  [Cell.empty, Cell.str "Total Yield", Cell.num (PyRat.ofInt 500), Cell.empty, Cell.empty,
    Cell.str "Per Serving Weight", Cell.num (PyRat.ofInt 100)],
  [Cell.empty, Cell.empty, Cell.empty, Cell.empty, Cell.empty,
    Cell.str "Calories", Cell.num (PyRat.ofInt 250)],
  [Cell.str "Ingredients"],
  [Cell.str "S.No"],
  [Cell.num (PyRat.ofInt 1), Cell.empty, Cell.str "Onion", Cell.empty, Cell.empty,
    Cell.num (PyRat.ofInt 200)],
  [Cell.num (PyRat.ofInt 2), Cell.empty, Cell.str "Lentils", Cell.empty, Cell.empty,
    Cell.num (PyRat.ofInt 300), Cell.empty, Cell.num (PyRat.ofInt 250)]]

/-- Two markers: the first resolves category `"Cat A"`, the second resolves
no category of its own. -/
def gTwo : Grid := gridOfRows [
  [Cell.str "Cat A"],
  [Cell.str "Alpha Soup"],
  [Cell.empty, Cell.str "Recipe ID", Cell.str "R1"],
  [Cell.str "Ingredients"],
  [Cell.str "S.No"],
  [Cell.num (PyRat.ofInt 1), Cell.empty, Cell.str "Onion", Cell.empty, Cell.empty,
    Cell.num (PyRat.ofInt 100)],
  [],
  [Cell.str "Beta Soup"],
  [Cell.empty, Cell.str "Recipe ID", Cell.str "R2"],
  [Cell.str "Ingredients"],
  [Cell.str "S.No"],
  [Cell.num (PyRat.ofInt 1), Cell.empty, Cell.str "Salt", Cell.empty, Cell.empty,
    Cell.num (PyRat.ofInt 10)]]

/-- Ingredient rows 1,2,3, then a row with an empty ordinal but a non-empty
column B, then ingredient row 4. -/
def gC1 : Grid := gridOfRows [
  [Cell.str "Soup X"],
  [Cell.empty, Cell.str "Recipe ID"],
  [Cell.str "Ingredients"],
  [Cell.str "S.No"],
  [Cell.num (PyRat.ofInt 1), Cell.empty, Cell.str "A", Cell.empty, Cell.empty, Cell.num (PyRat.ofInt 10)],
  [Cell.num (PyRat.ofInt 2), Cell.empty, Cell.str "B", Cell.empty, Cell.empty, Cell.num (PyRat.ofInt 10)],
  [Cell.num (PyRat.ofInt 3), Cell.empty, Cell.str "C", Cell.empty, Cell.empty, Cell.num (PyRat.ofInt 10)],
  [Cell.empty, Cell.str "note"],
  [Cell.num (PyRat.ofInt 4), Cell.empty, Cell.str "D", Cell.empty, Cell.empty, Cell.num (PyRat.ofInt 10)]]

/-- One ingredient row whose raw quantity (column F) is 5 and whose
yield-adjusted quantity (column H) is the unparseable string `"abc"`. -/
def gC2 : Grid := gridOfRows [
  [Cell.str "Soup Y"],
  [Cell.empty, Cell.str "Recipe ID"],
  [Cell.str "Ingredients"],
  [Cell.str "S.No"],
  [Cell.num (PyRat.ofInt 1), Cell.empty, Cell.str "Sugar", Cell.empty, Cell.empty,
    Cell.num (PyRat.ofInt 5), Cell.empty, Cell.str "abc"]]

/-- A marker with a resolvable name but no `Ingredients` section label. -/
def gC3 : Grid := gridOfRows [
  [Cell.str "Soup Z"],
  [Cell.empty, Cell.str "Recipe ID"]]

/-- A recipe whose per-serving weight metadata value is negative. -/
def gC6 : Grid := gridOfRows [
  [Cell.str "Soup W"],
  [Cell.empty, Cell.str "Recipe ID", Cell.empty, Cell.empty, Cell.empty,
    Cell.str "Per Serving Weight", Cell.num (PyRat.ofInt (-5))],
  [Cell.str "Ingredients"],
  [Cell.str "S.No"],
  [Cell.num (PyRat.ofInt 1), Cell.empty, Cell.str "Salt", Cell.empty, Cell.empty,
    Cell.num (PyRat.ofInt 50)]]

/-- A marker whose only name candidate is `"Mix 20-3"`, which contains no
four consecutive digits. -/
def gC8 : Grid := gridOfRows [
  [Cell.str "Mix 20-3"],
  [Cell.empty, Cell.str "Recipe ID"]]

/-- The empty sheet. -/
def gEmpty : Grid := gridOfRows []

/-- Placeholder serving object. -/
def emptyServing : Serving :=
  ⟨PyRat.ofInt 0, "", PyRat.ofInt 0, PyRat.ofInt 0, "", 0, PyRat.ofInt 0⟩

/-- Placeholder ingredient. -/
def emptyIngredient : Ingredient :=
  ⟨"", "", "", PyRat.ofInt 0, PyRat.ofInt 0, [], PyRat.ofInt 0,
    PyRat.ofInt 0, PyRat.ofInt 0, "", "", false, [], [], [], [], [], none⟩

/-- Placeholder record. -/
def emptyRecord : Record :=
  ⟨"", "", "", "", "", none, "", emptyServing, [], [], [], PyRat.ofInt 0,
    PyRat.ofInt 0, PyRat.ofInt 0, PyRat.ofInt 0, [], none⟩

/-- The records extracted from `gMain`. -/
def rsMain : List Record := (parseExcel gMain ids0).toOption.getD []

/-- The single record extracted from `gMain`. -/
def rMain : Record := rsMain.getD 0 emptyRecord

/-- The first ingredient of the `gMain` record. -/
def ingMain : Ingredient := rMain.ingredients.getD 0 emptyIngredient

/-- `parse_recipe` on the `gMain` marker. -/
def prMain : Except Unit (Option Record × Nat) :=
  parseRecipe gMain ids0 "Lentil Soup" 3 (some "Soups") 0

/-- The record returned by `prMain`. -/
def rMainRec : Record := ((prMain.toOption.getD (none, 0)).1).getD emptyRecord

/-- The id counter returned by `prMain`. -/
def kMainRec : Nat := (prMain.toOption.getD (none, 0)).2

/-- `parse_recipe` on the second marker of `gTwo`, with the sticky category
`"Cat A"` and the counter state after the first recipe. -/
def prBeta : Except Unit (Option Record × Nat) :=
  parseRecipe gTwo ids0 "Beta Soup" 9 (some "Cat A") 2

/-- The record returned by `prBeta`. -/
def rBeta : Record := ((prBeta.toOption.getD (none, 0)).1).getD emptyRecord

/-- The id counter returned by `prBeta`. -/
def kBeta : Nat := (prBeta.toOption.getD (none, 0)).2

/-- The tail of the `gTwo` scan starting at the second marker. -/
def rsBeta : List Record :=
  (parseExcelGo gTwo ids0 [9] (some 3) (some "Cat A") 2).toOption.getD []

/-- `parse_recipe` on the `gC6` marker. -/
def prC6 : Except Unit (Option Record × Nat) :=
  parseRecipe gC6 ids0 "Soup W" 2 none 0

/-- The record returned by `prC6`. -/
def rC6 : Record := ((prC6.toOption.getD (none, 0)).1).getD emptyRecord

/-- The id counter returned by `prC6`. -/
def kC6 : Nat := (prC6.toOption.getD (none, 0)).2

/-! ## Inversion and projection lemmas -/

/-- `parse_recipe` returns `None` only when no `Ingredients` label was
found in its window. -/
theorem parseRecipe_ok_none (g : Grid) (ids : Nat → String) (nm : String)
    (rid : Nat) (cat : Option String) (ctr c' : Nat)
    (h : parseRecipe g ids nm rid cat ctr = .ok (none, c')) :
    ingredientsStart g rid = none := by
  unfold parseRecipe at h
  cases hs : ingredientsStart g rid with
  | none => rfl
  | some start =>
    simp only [hs] at h
    cases ha : parseIngredientsAux g ids (g.maxRow + 1 - start) start ctr with
    | error e => simp [ha] at h
    | ok p => obtain ⟨ings, k⟩ := p; simp [ha] at h

/-- Shape of a successful `parse_recipe` run that yields a record. -/
theorem parseRecipe_ok_some (g : Grid) (ids : Nat → String) (nm : String)
    (rid : Nat) (cat : Option String) (ctr : Nat) (r : Record) (c' : Nat)
    (h : parseRecipe g ids nm rid cat ctr = .ok (some r, c')) :
    ∃ start ings k, ingredientsStart g rid = some start ∧
      parseIngredientsAux g ids (g.maxRow + 1 - start) start ctr =
        .ok (ings, k) ∧
      r = mkRecord nm cat (recipeMeta g rid) ings (ids k) ∧ c' = k + 1 := by
  unfold parseRecipe at h
  cases hs : ingredientsStart g rid with
  | none => simp [hs] at h
  | some start =>
    simp only [hs] at h
    cases ha : parseIngredientsAux g ids (g.maxRow + 1 - start) start ctr with
    | error e => simp [ha] at h
    | ok p =>
      obtain ⟨ings, k⟩ := p
      simp only [ha] at h
      injection h with h1
      injection h1 with h2 h3
      injection h2 with h4
      exact ⟨start, ings, k, rfl, ha, h4.symm, h3.symm⟩

/-- The category stored in an assembled record. -/
theorem mkRecord_category (nm : String) (cat : Option String)
    (m : RecipeMeta) (ings : List Ingredient) (i : String) :
    (mkRecord nm cat m ings i).category = cat.getD "" := rfl

/-- The serving size stored in an assembled record. -/
theorem mkRecord_servingSizeGrams (nm : String) (cat : Option String)
    (m : RecipeMeta) (ings : List Ingredient) (i : String) :
    (mkRecord nm cat m ings i).serving.servingSizeGrams =
      servingSizeOf m.perServingWeight := rfl

/-- The total yield stored in an assembled record. -/
theorem mkRecord_totalYieldGrams (nm : String) (cat : Option String)
    (m : RecipeMeta) (ings : List Ingredient) (i : String) :
    (mkRecord nm cat m ings i).serving.totalYieldGrams =
      totalYieldValOf m.totalYield ings := rfl

/-- The scale factor stored in an assembled record. -/
theorem mkRecord_scaleFactor (nm : String) (cat : Option String)
    (m : RecipeMeta) (ings : List Ingredient) (i : String) :
    (mkRecord nm cat m ings i).serving.scaleFactor =
      pyRound2 (scaleFactorRaw (totalYieldValOf m.totalYield ings)
        (servingSizeOf m.perServingWeight)) := rfl

/-- The ingredient list stored in an assembled record. -/
theorem mkRecord_ingredients (nm : String) (cat : Option String)
    (m : RecipeMeta) (ings : List Ingredient) (i : String) :
    (mkRecord nm cat m ings i).ingredients = ings := rfl

/-- The three quantity fields of a built ingredient coincide. -/
theorem buildIngredient_qty_eq (g : Grid) (row : Nat) (eid : String)
    (ing : Ingredient) (h : buildIngredient g row eid = .ok ing) :
    ing.quantity = ing.quantityInGrams ∧
      ing.yieldQuantityInGrams = ing.quantity := by
  simp only [buildIngredient] at h
  split at h
  · exact absurd h (by simp)
  · split at h
    · exact absurd h (by simp)
    · injection h with h1
      subst h1
      exact ⟨rfl, rfl⟩

/-- Every ingredient collected by the ingredient loop has coinciding
quantity fields. -/
theorem parseIngredientsAux_qty (g : Grid) (ids : Nat → String) :
    ∀ (fuel row ctr : Nat) (l : List Ingredient) (c : Nat),
      parseIngredientsAux g ids fuel row ctr = .ok (l, c) →
      ∀ ing ∈ l, ing.quantity = ing.quantityInGrams ∧
        ing.yieldQuantityInGrams = ing.quantity := by
  intro fuel
  induction fuel with
  | zero =>
    intro row ctr l c h ing hm
    simp only [parseIngredientsAux] at h
    injection h with h1
    injection h1 with h2 h3
    subst h2
    simp at hm
  | succ n ihn =>
    intro row ctr l c h ing hm
    rw [parseIngredientsAux] at h
    by_cases hrow : g.maxRow < row
    · rw [if_pos hrow] at h
      injection h with h1
      injection h1 with h2 h3
      subst h2
      simp at hm
    · rw [if_neg hrow] at h
      by_cases ha : g.cell row 1 = Cell.empty
      · rw [if_pos ha] at h
        by_cases hbc :
            (!(g.cell row 2).truthy && !(g.cell row 3).truthy) = true
        · rw [if_pos hbc] at h
          injection h with h1
          injection h1 with h2 h3
          subst h2
          simp at hm
        · rw [if_neg hbc] at h
          exact ihn (row + 1) ctr l c h ing hm
      · rw [if_neg ha] at h
        by_cases ho : ordinalOk (g.cell row 1) = true
        · rw [if_pos ho] at h
          cases hb : buildIngredient g row ("imported_" ++ ids ctr) with
          | error e => simp [hb] at h
          | ok ing' =>
            simp only [hb] at h
            cases hrec : parseIngredientsAux g ids n (row + 1) (ctr + 1) with
            | error e => simp [hrec] at h
            | ok p =>
              obtain ⟨l', c''⟩ := p
              simp only [hrec] at h
              injection h with h1
              injection h1 with h2 h3
              subst h2
              rcases List.mem_cons.mp hm with h4 | h4
              · subst h4
                exact buildIngredient_qty_eq g row _ ing hb
              · exact ihn (row + 1) (ctr + 1) l' c'' hrec ing h4
        · rw [if_neg ho] at h
          injection h with h1
          injection h1 with h2 h3
          subst h2
          simp at hm

/-- Record-count characterization of the pass-2 fold: on a successful run
the output has one record per marker whose name resolves and whose
`Ingredients` section is found. -/
theorem parseExcelGo_length (g : Grid) (ids : Nat → String) (ms : List Nat) :
    ∀ (prev : Option Nat) (cat : Option String) (ctr : Nat)
      (rs : List Record),
      parseExcelGo g ids ms prev cat ctr = .ok rs →
      rs.length = (ms.filter fun rid =>
        (findName g rid).isSome && (ingredientsStart g rid).isSome).length := by
  induction ms with
  | nil =>
    intro prev cat ctr rs h
    rw [parseExcelGo] at h
    injection h with h1
    subst h1
    rfl
  | cons rid rest ih =>
    intro prev cat ctr rs h
    rw [parseExcelGo] at h
    cases hn : findName g rid with
    | none =>
      simp only [hn] at h
      rw [List.filter_cons_of_neg (by simp [hn])]
      exact ih (some rid) cat ctr rs h
    | some p =>
      obtain ⟨nm, nr⟩ := p
      simp only [hn] at h
      cases hp : parseRecipe g ids nm rid (resolveCategory g nr prev cat)
          ctr with
      | error e => simp [hp] at h
      | ok q =>
        obtain ⟨or, ctr'⟩ := q
        simp only [hp] at h
        cases or with
        | none =>
          have hnone := parseRecipe_ok_none _ _ _ _ _ _ _ hp
          rw [List.filter_cons_of_neg (by simp [hnone])]
          exact ih (some rid) _ ctr' rs h
        | some r =>
          obtain ⟨st, ings, k, hst, -, -, -⟩ :=
            parseRecipe_ok_some _ _ _ _ _ _ _ _ hp
          cases hrest : parseExcelGo g ids rest (some rid)
              (resolveCategory g nr prev cat) ctr' with
          | error e => simp [hrest] at h
          | ok rs' =>
            simp only [hrest] at h
            injection h with h1
            subst h1
            rw [List.filter_cons_of_pos (by simp [hn, hst])]
            simp [ih (some rid) _ ctr' rs' hrest]

/-! ## Identifier-independence lemmas -/

/-- Building an ingredient with two different entity ids gives the same
result up to `stripIng` (and the same success/failure). -/
theorem buildIngredient_strip (g : Grid) (row : Nat) (e1 e2 : String) :
    (buildIngredient g row e1).map stripIng =
      (buildIngredient g row e2).map stripIng := by
  simp only [buildIngredient]
  cases h1 : (if (g.cell row 9).truthy then cellToFloat? (g.cell row 9)
      else some (PyRat.ofInt 0)) with
  | none => rfl
  | some costV =>
    cases h2 : (if (g.cell row 7).truthy then cellToFloat? (g.cell row 7)
        else some (PyRat.ofInt 100)) with
    | none => rfl
    | some ypV => simp [Except.map, stripIng]

/-- `quantity_in_grams` projections agree on strip-equal ingredient lists. -/
theorem map_qig_of_strip {l1 l2 : List Ingredient}
    (h : l1.map stripIng = l2.map stripIng) :
    l1.map (·.quantityInGrams) = l2.map (·.quantityInGrams) := by
  have e : ∀ l : List Ingredient,
      l.map (·.quantityInGrams) = (l.map stripIng).map (·.quantityInGrams) := by
    intro l
    rw [List.map_map]
    rfl
  rw [e l1, e l2, h]

/-- The total-yield computation agrees on strip-equal ingredient lists. -/
theorem totalYieldValOf_strip (ty : Option PyRat) {l1 l2 : List Ingredient}
    (h : l1.map stripIng = l2.map stripIng) :
    totalYieldValOf ty l1 = totalYieldValOf ty l2 := by
  unfold totalYieldValOf
  rw [map_qig_of_strip h]

/-- Record assembly with strip-equal ingredient lists and any two record
ids gives strip-equal records. -/
theorem mkRecord_strip (nm : String) (cat : Option String) (m : RecipeMeta)
    {l1 l2 : List Ingredient} (i1 i2 : String)
    (h : l1.map stripIng = l2.map stripIng) :
    stripRec (mkRecord nm cat m l1 i1) = stripRec (mkRecord nm cat m l2 i2) := by
  have hty := totalYieldValOf_strip m.totalYield h
  simp [stripRec, mkRecord, hty, h]

/-- The ingredient loop is id-independent up to `stripIng`, for any two
counter states. -/
theorem parseIngredientsAux_strip (g : Grid) (ids1 ids2 : Nat → String) :
    ∀ (fuel row c1 c2 : Nat),
      (parseIngredientsAux g ids1 fuel row c1).map (fun p => p.1.map stripIng) =
      (parseIngredientsAux g ids2 fuel row c2).map
        (fun p => p.1.map stripIng) := by
  intro fuel
  induction fuel with
  | zero => intro row c1 c2; rfl
  | succ n ihn =>
    intro row c1 c2
    rw [parseIngredientsAux, parseIngredientsAux]
    by_cases hrow : g.maxRow < row
    · rw [if_pos hrow, if_pos hrow]
      rfl
    · rw [if_neg hrow, if_neg hrow]
      by_cases ha : g.cell row 1 = Cell.empty
      · rw [if_pos ha, if_pos ha]
        by_cases hbc :
            (!(g.cell row 2).truthy && !(g.cell row 3).truthy) = true
        · rw [if_pos hbc, if_pos hbc]
          rfl
        · rw [if_neg hbc, if_neg hbc]
          exact ihn (row + 1) c1 c2
      · rw [if_neg ha, if_neg ha]
        by_cases ho : ordinalOk (g.cell row 1) = true
        · rw [if_pos ho, if_pos ho]
          have hb := buildIngredient_strip g row ("imported_" ++ ids1 c1)
            ("imported_" ++ ids2 c2)
          cases hb1 : buildIngredient g row ("imported_" ++ ids1 c1) with
          | error e =>
            rw [hb1] at hb
            cases hb2 : buildIngredient g row ("imported_" ++ ids2 c2) with
            | error e2 => cases e; cases e2; rfl
            | ok i2 => rw [hb2] at hb; simp [Except.map] at hb
          | ok i1 =>
            rw [hb1] at hb
            cases hb2 : buildIngredient g row ("imported_" ++ ids2 c2) with
            | error e2 => rw [hb2] at hb; simp [Except.map] at hb
            | ok i2 =>
              rw [hb2] at hb
              simp only [Except.map, Except.ok.injEq] at hb
              have hrec := ihn (row + 1) (c1 + 1) (c2 + 1)
              cases hr1 : parseIngredientsAux g ids1 n (row + 1) (c1 + 1) with
              | error e =>
                rw [hr1] at hrec
                cases hr2 : parseIngredientsAux g ids2 n (row + 1)
                    (c2 + 1) with
                | error e2 => cases e; cases e2; rfl
                | ok p2 => rw [hr2] at hrec; simp [Except.map] at hrec
              | ok p1 =>
                obtain ⟨l1, k1⟩ := p1
                rw [hr1] at hrec
                cases hr2 : parseIngredientsAux g ids2 n (row + 1)
                    (c2 + 1) with
                | error e2 => rw [hr2] at hrec; simp [Except.map] at hrec
                | ok p2 =>
                  obtain ⟨l2, k2⟩ := p2
                  rw [hr2] at hrec
                  simp only [Except.map, Except.ok.injEq] at hrec
                  simp [Except.map, hb, hrec]
        · rw [if_neg ho, if_neg ho]
          rfl

/-- `parse_recipe` is id-independent up to `stripRec`, for any two counter
states. -/
theorem parseRecipe_strip (g : Grid) (ids1 ids2 : Nat → String) (nm : String)
    (rid : Nat) (cat : Option String) (c1 c2 : Nat) :
    (parseRecipe g ids1 nm rid cat c1).map (fun p => p.1.map stripRec) =
      (parseRecipe g ids2 nm rid cat c2).map (fun p => p.1.map stripRec) := by
  unfold parseRecipe
  cases hs : ingredientsStart g rid with
  | none => rfl
  | some start =>
    have haux := parseIngredientsAux_strip g ids1 ids2 (g.maxRow + 1 - start)
      start c1 c2
    cases h1 : parseIngredientsAux g ids1 (g.maxRow + 1 - start) start c1 with
    | error e =>
      rw [h1] at haux
      cases h2 : parseIngredientsAux g ids2 (g.maxRow + 1 - start) start
          c2 with
      | error e2 => cases e; cases e2; simp [h1, h2]
      | ok p2 => rw [h2] at haux; simp [Except.map] at haux
    | ok p1 =>
      obtain ⟨l1, k1⟩ := p1
      rw [h1] at haux
      cases h2 : parseIngredientsAux g ids2 (g.maxRow + 1 - start) start
          c2 with
      | error e2 => rw [h2] at haux; simp [Except.map] at haux
      | ok p2 =>
        obtain ⟨l2, k2⟩ := p2
        rw [h2] at haux
        simp only [Except.map, Except.ok.injEq] at haux
        have hmk := mkRecord_strip nm cat (recipeMeta g rid) (ids1 k1)
          (ids2 k2) haux
        simp [h1, h2, Except.map, hmk]

/-- The pass-2 fold is id-independent up to `stripRec`, for any two counter
states. -/
theorem parseExcelGo_strip (g : Grid) (ids1 ids2 : Nat → String)
    (ms : List Nat) :
    ∀ (prev : Option Nat) (cat : Option String) (c1 c2 : Nat),
      (parseExcelGo g ids1 ms prev cat c1).map (List.map stripRec) =
        (parseExcelGo g ids2 ms prev cat c2).map (List.map stripRec) := by
  induction ms with
  | nil => intro prev cat c1 c2; rfl
  | cons rid rest ih =>
    intro prev cat c1 c2
    rw [parseExcelGo, parseExcelGo]
    cases hn : findName g rid with
    | none =>
      simp only [hn]
      exact ih (some rid) cat c1 c2
    | some p =>
      obtain ⟨nm, nr⟩ := p
      simp only [hn]
      have hpr := parseRecipe_strip g ids1 ids2 nm rid
        (resolveCategory g nr prev cat) c1 c2
      cases h1 : parseRecipe g ids1 nm rid (resolveCategory g nr prev cat)
          c1 with
      | error e =>
        rw [h1] at hpr
        cases h2 : parseRecipe g ids2 nm rid (resolveCategory g nr prev cat)
            c2 with
        | error e2 => cases e; cases e2; rfl
        | ok q2 => rw [h2] at hpr; simp [Except.map] at hpr
      | ok q1 =>
        obtain ⟨or1, k1⟩ := q1
        rw [h1] at hpr
        cases h2 : parseRecipe g ids2 nm rid (resolveCategory g nr prev cat)
            c2 with
        | error e2 => rw [h2] at hpr; simp [Except.map] at hpr
        | ok q2 =>
          obtain ⟨or2, k2⟩ := q2
          rw [h2] at hpr
          simp only [Except.map, Except.ok.injEq] at hpr
          cases or1 with
          | none =>
            cases or2 with
            | none => exact ih (some rid) _ k1 k2
            | some r2 => simp at hpr
          | some r1 =>
            cases or2 with
            | none => simp at hpr
            | some r2 =>
              simp only [Option.map_some', Option.some.injEq] at hpr
              have hrec := ih (some rid) (resolveCategory g nr prev cat) k1 k2
              cases hg1 : parseExcelGo g ids1 rest (some rid)
                  (resolveCategory g nr prev cat) k1 with
              | error e =>
                rw [hg1] at hrec
                cases hg2 : parseExcelGo g ids2 rest (some rid)
                    (resolveCategory g nr prev cat) k2 with
                | error e2 => cases e; cases e2; simp [hg1, hg2]
                | ok rs2 => rw [hg2] at hrec; simp [Except.map] at hrec
              | ok rs1 =>
                rw [hg1] at hrec
                cases hg2 : parseExcelGo g ids2 rest (some rid)
                    (resolveCategory g nr prev cat) k2 with
                | error e2 => rw [hg2] at hrec; simp [Except.map] at hrec
                | ok rs2 =>
                  rw [hg2] at hrec
                  simp only [Except.map, Except.ok.injEq] at hrec
                  simp [hg1, hg2, Except.map, hpr, hrec]

/-- The category-resolution loop never discards a cached category: started
from `some a` it always returns `some` of something. -/
theorem resolveCategoryGo_isSome (g : Grid) (prev : Option Nat) :
    ∀ (l : List Nat) (a : String),
      (resolveCategoryGo g prev l (some a)).isSome = true := by
  intro l
  induction l with
  | nil => intro a; rfl
  | cons r rs ih =>
    intro a
    simp only [resolveCategoryGo]
    split
    · exact ih a
    · split
      · split
        · rfl
        · split
          · rfl
          · split
            · rfl
            · split
              · split
                · rfl
                · rfl
              · rfl
      · rfl

/-- Every record emitted by the pass-2 fold has ingredients whose three
quantity fields coincide. -/
theorem parseExcelGo_qty (g : Grid) (ids : Nat → String) (ms : List Nat) :
    ∀ (prev : Option Nat) (cat : Option String) (ctr : Nat)
      (rs : List Record),
      parseExcelGo g ids ms prev cat ctr = .ok rs →
      ∀ r ∈ rs, ∀ ing ∈ r.ingredients,
        ing.quantity = ing.quantityInGrams ∧
          ing.yieldQuantityInGrams = ing.quantity := by
  induction ms with
  | nil =>
    intro prev cat ctr rs h r hr
    rw [parseExcelGo] at h
    injection h with h1
    subst h1
    simp at hr
  | cons rid rest ih =>
    intro prev cat ctr rs h r hr ing hing
    rw [parseExcelGo] at h
    cases hn : findName g rid with
    | none =>
      simp only [hn] at h
      exact ih _ _ _ _ h r hr ing hing
    | some p =>
      obtain ⟨nm, nr⟩ := p
      simp only [hn] at h
      cases hp : parseRecipe g ids nm rid (resolveCategory g nr prev cat)
          ctr with
      | error e => simp [hp] at h
      | ok q =>
        obtain ⟨or, ctr'⟩ := q
        simp only [hp] at h
        cases or with
        | none => exact ih _ _ _ _ h r hr ing hing
        | some r0 =>
          cases hrest : parseExcelGo g ids rest (some rid)
              (resolveCategory g nr prev cat) ctr' with
          | error e => simp [hrest] at h
          | ok rs' =>
            simp only [hrest] at h
            injection h with h1
            subst h1
            rcases List.mem_cons.mp hr with h2 | h2
            · subst h2
              obtain ⟨st, ings, k, hst, haux, hrq, -⟩ :=
                parseRecipe_ok_some _ _ _ _ _ _ _ _ hp
              refine parseIngredientsAux_qty g ids _ st ctr ings k haux ing ?_
              rw [hrq, mkRecord_ingredients] at hing
              exact hing
            · exact ih _ _ _ _ hrest r h2 ing hing

/-- A filter that preserves length accepts every element. -/
theorem filter_length_eq_all {α : Type} (p : α → Bool) (l : List α)
    (h : (l.filter p).length = l.length) : ∀ a ∈ l, p a = true := by
  induction l with
  | nil => intro a ha; simp at ha
  | cons x xs ih =>
    intro a ha
    rw [List.filter_cons] at h
    by_cases hx : p x = true
    · rw [if_pos hx] at h
      simp only [List.length_cons, Nat.add_right_cancel_iff] at h
      rcases List.mem_cons.mp ha with h1 | h1
      · subst h1; exact hx
      · exact ih h a h1
    · rw [if_neg hx] at h
      have hle := List.length_filter_le p xs
      simp only [List.length_cons] at h
      omega

/-! ## The claims -/

/-- C1 (counterexample): the claim says a row with an empty primary-column
ordinal and a non-empty value in one of the next two columns terminates
line-item collection, so items below it are not collected.  In `gC1` row 8
is exactly such a row (empty column A, non-empty column B), yet the item
`"D"` of row 9 below it is collected: the loop merely skips the row. -/
theorem claim_C1_counterexample :
    gC1.cell 8 1 = Cell.empty ∧ (gC1.cell 8 2).truthy = true ∧
    (parseExcel gC1 ids0).map
      (List.map fun r => r.ingredients.map Ingredient.name) =
      .ok [["A", "B", "C", "D"]] :=
  ⟨rfl, rfl, rfl⟩

/-- C1 (amended): in the line item scan, a row with an empty ordinal and
empty label/value columns terminates collection; a row with an empty
ordinal but a non-empty value in either of those two columns is skipped and
collection continues with the next row; a non-empty ordinal that does not
parse as a number terminates collection. -/
theorem claim_C1_amended (g : Grid) (ids : Nat → String)
    (fuel row ctr : Nat) (hrow : row ≤ g.maxRow) :
    (g.cell row 1 = Cell.empty → (g.cell row 2).truthy = false →
      (g.cell row 3).truthy = false →
      parseIngredientsAux g ids (fuel + 1) row ctr = .ok ([], ctr)) ∧
    (g.cell row 1 = Cell.empty →
      ((g.cell row 2).truthy = true ∨ (g.cell row 3).truthy = true) →
      parseIngredientsAux g ids (fuel + 1) row ctr =
        parseIngredientsAux g ids fuel (row + 1) ctr) ∧
    (g.cell row 1 ≠ Cell.empty → ordinalOk (g.cell row 1) = false →
      parseIngredientsAux g ids (fuel + 1) row ctr = .ok ([], ctr)) := by
  have hnr : ¬ g.maxRow < row := not_lt.mpr hrow
  refine ⟨?_, ?_, ?_⟩
  · intro ha hb hc
    rw [parseIngredientsAux, if_neg hnr, if_pos ha,
      if_pos (by simp [hb, hc])]
  · intro ha hbc
    rw [parseIngredientsAux, if_neg hnr, if_pos ha,
      if_neg (by rcases hbc with h | h <;> simp [h])]
  · intro ha ho
    rw [parseIngredientsAux, if_neg hnr, if_neg ha, if_neg (by simp [ho])]

/-- C1 (amended, witness): in `gC1`, the scan at the malformed row 8
continues with row 9 rather than terminating. -/
theorem claim_C1_amended_witness :
    parseIngredientsAux gC1 ids0 2 8 3 = parseIngredientsAux gC1 ids0 1 9 3 :=
  (claim_C1_amended gC1 ids0 1 8 3 (by decide)).2.1 rfl (Or.inl rfl)

/-- C2 (counterexample): the claim says a present-but-unparseable
yield-adjusted quantity falls back to the raw quantity.  With raw quantity
5 and yield quantity `"abc"`, the stored effective quantity is 0 (the
`except` clause), while the claim's own effective quantity is 5. -/
theorem claim_C2_counterexample :
    qtyVal (Cell.num (PyRat.ofInt 5)) (Cell.str "abc") = PyRat.ofInt 0 ∧
    claimedEffQty (Cell.num (PyRat.ofInt 5)) (Cell.str "abc") =
      PyRat.ofInt 5 ∧
    (parseExcel gC2 ids0).map
      (List.map fun r => r.ingredients.map Ingredient.quantity) =
      .ok [[PyRat.ofInt 0]] :=
  ⟨rfl, rfl, rfl⟩

/-- C2 (amended): the stored effective quantity is the yield-adjusted
quantity when that cell is truthy and parseable; 0 (not the raw quantity)
when that cell is truthy but unparseable; and otherwise the raw quantity
when truthy and parseable, else 0. -/
theorem claim_C2_amended (q yq : Cell) :
    (yq.truthy = true → cellToFloat? yq = none →
      qtyVal q yq = PyRat.ofInt 0) ∧
    (∀ v, yq.truthy = true → cellToFloat? yq = some v → qtyVal q yq = v) ∧
    (yq.truthy = false →
      qtyVal q yq = if q.truthy then (cellToFloat? q).getD (PyRat.ofInt 0)
        else PyRat.ofInt 0) := by
  refine ⟨?_, ?_, ?_⟩
  · intro ht hn; simp [qtyVal, ht, hn]
  · intro v ht hs; simp [qtyVal, ht, hs]
  · intro hf; simp [qtyVal, hf]

/-- C2 (amended, witness): a truthy unparseable yield quantity yields 0. -/
theorem claim_C2_amended_witness :
    qtyVal (Cell.num (PyRat.ofInt 5)) (Cell.str "abc") = PyRat.ofInt 0 :=
  (claim_C2_amended (Cell.num (PyRat.ofInt 5)) (Cell.str "abc")).1 rfl rfl

/-- C3 (counterexample): the claim says a marker yields no Record only when
no plausible name resolves.  In `gC3` the marker at row 2 resolves the name
`"Soup Z"`, yet the output is empty, because no `Ingredients` section label
exists and `parse_recipe` returns `None`. -/
theorem claim_C3_counterexample :
    findName gC3 2 = some ("Soup Z", 1) ∧ markerRows gC3 = [2] ∧
    parseExcel gC3 ids0 = .ok [] :=
  ⟨rfl, rfl, rfl⟩

/-- C3 (amended): on a successful run, a marker yields a Record exactly
when its name resolves and its `Ingredients` section label is found within
the 12-row window; the output length counts those markers. -/
theorem claim_C3_amended (g : Grid) (ids : Nat → String) (rs : List Record)
    (h : parseExcel g ids = .ok rs) :
    rs.length = ((markerRows g).filter fun rid =>
      (findName g rid).isSome && (ingredientsStart g rid).isSome).length :=
  parseExcelGo_length g ids (markerRows g) none none 0 rs h

/-- C3 (amended, witness): `gMain` has one marker, resolving both a name
and an `Ingredients` section, and one output record. -/
theorem claim_C3_amended_witness :
    rsMain.length = ((markerRows gMain).filter fun rid =>
      (findName gMain rid).isSome &&
        (ingredientsStart gMain rid).isSome).length :=
  claim_C3_amended gMain ids0 rsMain rfl

/-- C4: category is sticky.  First, the category-resolution step never
clears a cached category.  Second, a marker whose name resolves but whose
category resolution leaves the cache `some a` unchanged (it resolves no
closer category of its own) emits — when `parse_recipe` yields a record —
a record carrying exactly the cached category `a`, at the head of the
remaining output. -/
theorem claim_C4_sticky_category :
    (∀ (g : Grid) (nr : Nat) (prev : Option Nat) (a : String),
      (resolveCategory g nr prev (some a)).isSome = true) ∧
    (∀ (g : Grid) (ids : Nat → String) (rid : Nat) (rest : List Nat)
      (prev : Option Nat) (a : String) (ctr : Nat) (nm : String) (nr : Nat)
      (r : Record) (k : Nat) (rs : List Record),
      findName g rid = some (nm, nr) →
      resolveCategory g nr prev (some a) = some a →
      parseRecipe g ids nm rid (some a) ctr = .ok (some r, k) →
      parseExcelGo g ids (rid :: rest) prev (some a) ctr = .ok rs →
      rs.head? = some r ∧ r.category = a) := by
  constructor
  · intro g nr prev a
    exact resolveCategoryGo_isSome g prev _ a
  · intro g ids rid rest prev a ctr nm nr r k rs hfn hrc hpr hgo
    obtain ⟨st, ings, kk, -, -, hrq, -⟩ :=
      parseRecipe_ok_some _ _ _ _ _ _ _ _ hpr
    rw [parseExcelGo] at hgo
    simp only [hfn, hrc, hpr] at hgo
    cases hrest : parseExcelGo g ids rest (some rid) (some a) k with
    | error e => rw [hrest] at hgo; simp at hgo
    | ok rs' =>
      rw [hrest] at hgo
      injection hgo with h1
      subst h1
      refine ⟨rfl, ?_⟩
      rw [hrq, mkRecord_category]
      rfl

/-- C4 (witness): in the two-marker sheet `gTwo`, the second marker
resolves no category of its own and its record inherits `"Cat A"`. -/
theorem claim_C4_sticky_category_witness :
    rsBeta.head? = some rBeta ∧ rBeta.category = "Cat A" :=
  claim_C4_sticky_category.2 gTwo ids0 9 [] (some 3) "Cat A" 2 "Beta Soup" 8
    rBeta kBeta rsBeta rfl rfl rfl rfl

/-- C5: the stored scale factor of every emitted record is the record's
own total yield divided by its serving size, rounded to two decimals, with
the division guard; concretely `500/100` rounds to `5` and a
non-positive serving size yields `1`. -/
theorem claim_C5_scale_factor :
    (∀ (g : Grid) (ids : Nat → String) (nm : String) (rid : Nat)
      (cat : Option String) (ctr : Nat) (r : Record) (k : Nat),
      parseRecipe g ids nm rid cat ctr = .ok (some r, k) →
      r.serving.scaleFactor = pyRound2 (scaleFactorRaw
        r.serving.totalYieldGrams r.serving.servingSizeGrams)) ∧
    pyRound2 (scaleFactorRaw (PyRat.ofInt 500) (PyRat.ofInt 100)) =
      PyRat.ofInt 5 ∧
    (∀ t : PyRat, pyRound2 (scaleFactorRaw t (PyRat.ofInt 0)) =
      PyRat.ofInt 1) := by
  refine ⟨?_, rfl, ?_⟩
  · intro g ids nm rid cat ctr r k h
    obtain ⟨st, ings, kk, -, -, hrq, -⟩ :=
      parseRecipe_ok_some _ _ _ _ _ _ _ _ h
    subst hrq
    rw [mkRecord_scaleFactor, mkRecord_totalYieldGrams,
      mkRecord_servingSizeGrams]
  · intro t
    have hz : scaleFactorRaw t (PyRat.ofInt 0) = PyRat.ofInt 1 := by
      simp [scaleFactorRaw, PyRat.lt, PyRat.ofInt]
    rw [hz]
    rfl

/-- C5 (witness): the `gMain` record stores the rounded guarded quotient
of its own total yield and serving size. -/
theorem claim_C5_scale_factor_witness :
    rMainRec.serving.scaleFactor = pyRound2 (scaleFactorRaw
      rMainRec.serving.totalYieldGrams rMainRec.serving.servingSizeGrams) :=
  claim_C5_scale_factor.1 gMain ids0 "Lentil Soup" 3 (some "Soups") 0
    rMainRec kMainRec rfl

/-- C6 (counterexample): the claim says a non-positive per-serving weight
is replaced by 100.  In `gC6` the per-serving weight parses as `-5`, and
the emitted record's serving size is `-5`, not 100: only a falsy (absent
or zero) value falls back to 100. -/
theorem claim_C6_counterexample :
    (recipeMeta gC6 2).perServingWeight = some (PyRat.ofInt (-5)) ∧
    (parseExcel gC6 ids0).map
      (List.map fun r => r.serving.servingSizeGrams) =
      .ok [PyRat.ofInt (-5)] ∧
    PyRat.ofInt (-5) ≠ PyRat.ofInt 100 :=
  ⟨rfl, rfl, by decide⟩

/-- C6 (amended): the serving size of every emitted record is the parsed
per-serving weight when that value is truthy (present and nonzero,
including negative values), and 100 when it is absent or zero. -/
theorem claim_C6_amended :
    (∀ (g : Grid) (ids : Nat → String) (nm : String) (rid : Nat)
      (cat : Option String) (ctr : Nat) (r : Record) (k : Nat),
      parseRecipe g ids nm rid cat ctr = .ok (some r, k) →
      r.serving.servingSizeGrams =
        servingSizeOf (recipeMeta g rid).perServingWeight) ∧
    servingSizeOf none = PyRat.ofInt 100 ∧
    servingSizeOf (some (PyRat.ofInt 0)) = PyRat.ofInt 100 ∧
    (∀ w : PyRat, w.truthy = true → servingSizeOf (some w) = w) := by
  refine ⟨?_, rfl, rfl, ?_⟩
  · intro g ids nm rid cat ctr r k h
    obtain ⟨st, ings, kk, -, -, hrq, -⟩ :=
      parseRecipe_ok_some _ _ _ _ _ _ _ _ h
    subst hrq
    rw [mkRecord_servingSizeGrams]
  · intro w hw
    simp [servingSizeOf, hw]

/-- C6 (amended, witness): the `gC6` record's serving size is the
negative parsed weight `-5`, kept as-is. -/
theorem claim_C6_amended_witness :
    rC6.serving.servingSizeGrams =
      servingSizeOf (recipeMeta gC6 2).perServingWeight ∧
    servingSizeOf (some (PyRat.ofInt (-5))) = PyRat.ofInt (-5) :=
  ⟨claim_C6_amended.1 gC6 ids0 "Soup W" 2 none 0 rC6 kC6 rfl,
   claim_C6_amended.2.2.2 (PyRat.ofInt (-5)) rfl⟩

/-- C7: on a successful run the number of emitted records is at most the
number of marker rows; a grid with no marker rows yields the empty
sequence; and equality of the two counts forces every marker's name to
resolve. -/
theorem claim_C7_record_count :
    (∀ (g : Grid) (ids : Nat → String) (rs : List Record),
      parseExcel g ids = .ok rs → rs.length ≤ (markerRows g).length) ∧
    (∀ (g : Grid) (ids : Nat → String), markerRows g = [] →
      parseExcel g ids = .ok []) ∧
    (∀ (g : Grid) (ids : Nat → String) (rs : List Record),
      parseExcel g ids = .ok rs →
      rs.length = (markerRows g).length →
      ∀ rid ∈ markerRows g, (findName g rid).isSome = true) := by
  refine ⟨?_, ?_, ?_⟩
  · intro g ids rs h
    rw [parseExcelGo_length g ids (markerRows g) none none 0 rs h]
    exact List.length_filter_le _ _
  · intro g ids hm
    unfold parseExcel
    rw [hm]
    rfl
  · intro g ids rs h heq rid hrid
    have hlen := parseExcelGo_length g ids (markerRows g) none none 0 rs h
    rw [heq] at hlen
    have hall := filter_length_eq_all _ (markerRows g) hlen.symm rid hrid
    exact (Bool.and_eq_true _ _ |>.mp hall).1

/-- C7 (witness): `gMain` has one marker and one record; the empty grid
has no markers and empty output; the `gMain` marker's name resolves. -/
theorem claim_C7_record_count_witness :
    rsMain.length ≤ (markerRows gMain).length ∧
    parseExcel gEmpty ids0 = .ok [] ∧
    (findName gMain 3).isSome = true :=
  ⟨claim_C7_record_count.1 gMain ids0 rsMain rfl,
   claim_C7_record_count.2.1 gEmpty ids0 rfl,
   claim_C7_record_count.2.2 gMain ids0 rsMain rfl rfl 3 (by decide)⟩

/-- C8 (counterexample): the claim says the date rule rejects exactly the
values containing a 4-digit year (alongside `-` or `/`, short).  The value
`"Mix 20-3"` contains no four consecutive digits, yet the date rule
rejects it — the code tests only for the two-character substring `"20"` —
and consequently the `gC8` marker resolves no name and yields nothing. -/
theorem claim_C8_counterexample :
    hasFourConsecDigits "Mix 20-3" = false ∧
    isDateLike "Mix 20-3" = true ∧
    findName gC8 2 = none ∧ parseExcel gC8 ids0 = .ok [] :=
  ⟨rfl, rfl, rfl, rfl⟩

/-- C8 (amended): a candidate is rejected by the date rule exactly when it
contains the substring `"20"`, contains `"-"` or `"/"`, and is shorter
than 25 characters. -/
theorem claim_C8_amended (val : String) :
    isDateLike val = true ↔
      (strContains val "20" = true ∧
        (strContains val "-" = true ∨ strContains val "/" = true) ∧
        val.length < 25) := by
  simp [isDateLike, Bool.and_eq_true, Bool.or_eq_true, decide_eq_true_iff,
    and_assoc]

/-- C8 (amended, witness): the rule evaluated at `"Mix 20-3"`. -/
theorem claim_C8_amended_witness :
    isDateLike "Mix 20-3" = true ↔
      (strContains "Mix 20-3" "20" = true ∧
        (strContains "Mix 20-3" "-" = true ∨
          strContains "Mix 20-3" "/" = true) ∧
        ("Mix 20-3" : String).length < 25) :=
  claim_C8_amended "Mix 20-3"

/-- C9: the extraction is deterministic up to the randomly generated
identifiers: two runs over the same grid with any two id streams agree
once the record ids and per-ingredient entity identifiers are erased
(including agreement of success/failure). -/
theorem claim_C9_idempotent (g : Grid) (ids1 ids2 : Nat → String) :
    (parseExcel g ids1).map (List.map stripRec) =
      (parseExcel g ids2).map (List.map stripRec) :=
  parseExcelGo_strip g ids1 ids2 (markerRows g) none none 0 0

/-- C10: in every line item of every emitted record, the `quantity`,
`quantity_in_grams` and `yield_quantity_in_grams` fields hold the same
value. -/
theorem claim_C10_quantity_fields (g : Grid) (ids : Nat → String)
    (rs : List Record) (h : parseExcel g ids = .ok rs) :
    ∀ r ∈ rs, ∀ ing ∈ r.ingredients,
      ing.quantity = ing.quantityInGrams ∧
        ing.yieldQuantityInGrams = ing.quantity :=
  parseExcelGo_qty g ids (markerRows g) none none 0 rs h

/-- C10 (witness): the first ingredient of the `gMain` record. -/
theorem claim_C10_quantity_fields_witness :
    ingMain.quantity = ingMain.quantityInGrams ∧
      ingMain.yieldQuantityInGrams = ingMain.quantity :=
  claim_C10_quantity_fields gMain ids0 rsMain rfl rMain (by decide) ingMain
    (by decide)
